import Mathlib

/-!
Verification development for `esv_reference_server/handlers_headers.py`,
the header-notification gateway of the electrumsv-reference-server.

The Python source is shallowly embedded: bytes are `List Nat` (each entry
a byte value), HTTP interactions with the upstream HeaderSV service are
abstracted as values of `Fetch`, and each handler / session step becomes a
pure Lean function mirroring the source's control flow.
-/

namespace ESVRef

/-- Big-endian 4-byte encoding of a 32-bit unsigned integer, as produced by
`bitcoinx.pack_be_uint32` (Python `struct.pack` with big-endian unsigned-int
format), used at line 150 of `handlers_headers.py`. -/
def pack_be_uint32 (n : Nat) : List Nat :=
  [n / 2 ^ 24 % 256, n / 2 ^ 16 % 256, n / 2 ^ 8 % 256, n % 256]

/-- Little-endian 4-byte encoding of a 32-bit unsigned integer. Modelled from
the spec: section 3 claims the height field of the notification frame is
encoded "little-endian unsigned 32-bit"; this definition follows the spec's
words, for comparison with what the source actually does. -/
def pack_le_uint32_spec (n : Nat) : List Nat :=
  [n % 256, n / 2 ^ 8 % 256, n / 2 ^ 16 % 256, n / 2 ^ 24 % 256]

/-- The binary tip-notification frame built at lines 148-151 of
`handlers_headers.py`: a fresh bytearray, extended with the raw header bytes
read from upstream, then with `pack_be_uint32` of the height. -/
def tipFrame (raw_header : List Nat) (height : Nat) : List Nat :=
  raw_header ++ pack_be_uint32 height

/-- Big-endian read of a byte list as an unsigned integer (most significant
byte first), the inverse reading of `pack_be_uint32`. -/
def unpack_be_uint32 (bs : List Nat) : Nat :=
  bs.foldl (fun acc b => acc * 256 + b) 0

/-- Modelled from the spec: the `decode` function of section 8 (not part of
the server source; clients split the 84-byte frame back into header and
height). Takes the first 80 bytes as the raw header and reads the remainder
as the height. -/
def decodeFrame (frame : List Nat) : List Nat × Nat :=
  (frame.take 80, unpack_be_uint32 (frame.drop 80))

theorem unpack_pack_be (n : Nat) (h : n < 2 ^ 32) :
    unpack_be_uint32 (pack_be_uint32 n) = n := by
  have h0 := Nat.mod_add_div n 256
  have h1 := Nat.mod_add_div (n / 256) 256
  have h2 := Nat.mod_add_div (n / 256 / 256) 256
  have e16 : n / 2 ^ 16 = n / 256 / 256 := by
    rw [Nat.div_div_eq_div_mul]; norm_num
  have e24 : n / 2 ^ 24 = n / 256 / 256 / 256 := by
    rw [Nat.div_div_eq_div_mul, Nat.div_div_eq_div_mul]; norm_num
  have hlt : n / 256 / 256 / 256 < 256 := by
    rw [Nat.div_div_eq_div_mul, Nat.div_div_eq_div_mul]
    apply Nat.div_lt_of_lt_mul
    calc n < 2 ^ 32 := h
      _ = 256 * (256 * 256) * 256 := by norm_num
  simp only [unpack_be_uint32, pack_be_uint32, List.foldl, e16, e24]
  have e24m : n / 256 / 256 / 256 % 256 = n / 256 / 256 / 256 :=
    Nat.mod_eq_of_lt hlt
  rw [e24m]
  omega

/-- One chain-tip entry of the JSON list returned by the upstream
`/api/v1/chain/tips` endpoint, restricted to the fields
`_send_chain_tip` reads: `tip['state']`, `tip['header']['hash']` and
`tip['height']`. -/
structure TipEntry where
  state : String
  hash : String
  height : Nat
deriving DecidableEq, Repr

/-- Outcome of one HTTP GET against the upstream service, as seen by code
that only distinguishes a successful response from
`aiohttp.ClientConnectorError` (the upstream host being unreachable). -/
inductive Fetch (α : Type) where
  | ok (v : α)
  | connError
deriving DecidableEq, Repr

/-- The Python `for tip in result` loop of lines 136-140: each entry whose
`state` equals `"LONGEST_CHAIN"` rebinds the local variables, so the last
matching entry wins; if no entry matches, the locals stay unbound
(`none`). -/
def findLongest (tips : List TipEntry) : Option TipEntry :=
  tips.foldl (fun acc t => if t.state = "LONGEST_CHAIN" then some t else acc) none

/-- Observable outcome of `HeadersWebSocket._send_chain_tip`:
either a binary frame is pushed to the client and the coroutine returns
normally, or a `ClientConnectorError` was caught (error logged, nothing
sent, normal return), or evaluating the unbound local `current_best_hash`
raised an uncaught `NameError` that propagates to the caller. -/
inductive SendTipOutcome where
  | sent (frame : List Nat)
  | noFrameLogged
  | raisedNameError
deriving DecidableEq, Repr

/-- Shallow embedding of `HeadersWebSocket._send_chain_tip` (lines 127-155).
`tipsResp` is the upstream response to `GET /api/v1/chain/tips`;
`headerResp hash` is the upstream response (raw bytes) to
`GET /api/v1/chain/header/hash`. Only `aiohttp.ClientConnectorError` is
caught (lines 152-155); the loop of lines 136-140 leaves the best-hash
local unbound when no tip has state `"LONGEST_CHAIN"`, so line 144 then
raises an uncaught `NameError`. -/
def send_chain_tip (tipsResp : Fetch (List TipEntry))
    (headerResp : String → Fetch (List Nat)) : SendTipOutcome :=
  match tipsResp with
  | Fetch.connError => SendTipOutcome.noFrameLogged
  | Fetch.ok tips =>
    match findLongest tips with
    | none => SendTipOutcome.raisedNameError
    | some t =>
      match headerResp t.hash with
      | Fetch.connError => SendTipOutcome.noFrameLogged
      | Fetch.ok raw => SendTipOutcome.sent (tipFrame raw t.height)

/-- An inbound websocket message, as discriminated by the receive loop of
lines 161-173 (`aiohttp.WSMsgType.text`, `aiohttp.WSMsgType.error`, and
anything else, which the loop body ignores). -/
inductive WSMsg where
  | text (data : String)
  | errorMsg
  | otherMsg
deriving DecidableEq, Repr

/-- What the receive-loop body does with one client message: which frames
it sends back, whether it logs, and whether it closes the connection. -/
structure MsgEffect where
  framesSent : List (List Nat)
  logged : Bool
  closesConnection : Bool
deriving DecidableEq, Repr

/-- Shallow embedding of the body of the `async for` loop in
`_handle_new_connection` (lines 161-173): a text message is logged and
discarded (the reply code is commented out), an error message is logged,
anything else is ignored; no branch sends a frame or closes the socket. -/
def handleClientMessage (msg : WSMsg) : MsgEffect :=
  match msg with
  | WSMsg.text _ => ⟨[], true, false⟩
  | WSMsg.errorMsg => ⟨[], true, false⟩
  | WSMsg.otherMsg => ⟨[], false, false⟩

/-- All frames the receive loop sends over a whole sequence of inbound
client messages. -/
def receiveLoop (msgs : List WSMsg) : List (List Nat) :=
  msgs.foldl (fun acc msg => acc ++ (handleClientMessage msg).framesSent) []

/-- Observable trace of one websocket session from the viewpoint of
`_handle_new_connection` (lines 157-173): the frames sent to the client,
whether an exception propagated out (tearing the session down), whether
the session reached its passive receive loop, and whether the
upstream-unreachable error was logged. -/
structure SessionTrace where
  framesSent : List (List Nat)
  raised : Bool
  reachedReceiveLoop : Bool
  loggedUnreachable : Bool
deriving DecidableEq, Repr

/-- Shallow embedding of `HeadersWebSocket._handle_new_connection`
(lines 157-173): first `_send_chain_tip`, then the receive loop over the
inbound messages `msgs`. An exception from `_send_chain_tip` skips the
loop and propagates. -/
def handle_new_connection (tipsResp : Fetch (List TipEntry))
    (headerResp : String → Fetch (List Nat)) (msgs : List WSMsg) : SessionTrace :=
  match send_chain_tip tipsResp headerResp with
  | SendTipOutcome.raisedNameError => ⟨[], true, false, false⟩
  | SendTipOutcome.noFrameLogged => ⟨receiveLoop msgs, false, true, true⟩
  | SendTipOutcome.sent f => ⟨f :: receiveLoop msgs, false, true, false⟩

/-- Outcome of the teardown block: the registry deletion succeeded, or
`ws.close()` raised so the deletion never ran, or `del` raised `KeyError`
because the id was absent. Each constructor carries the registry contents
after the block. -/
inductive TeardownResult where
  | done (reg : List String)
  | closeRaised (reg : List String)
  | keyError (reg : List String)
deriving DecidableEq, Repr

/-- Shallow embedding of the `finally` block of `HeadersWebSocket.get`
(lines 122-125). The registry `headers_ws_clients` is modelled by its key
set, a list of ids. Statements run in order: `await ws.close()` first (if
it raises, the rest of the block is skipped and the registry is left
unchanged), then `del self.request.app['headers_ws_clients'][ws_id]`,
which removes the key if present and raises `KeyError` otherwise. -/
def ws_teardown (reg : List String) (ws_id : String) (closeRaises : Bool) :
    TeardownResult :=
  if closeRaises then TeardownResult.closeRaised reg
  else if ws_id ∈ reg then TeardownResult.done (reg.filter (fun k => k ≠ ws_id))
  else TeardownResult.keyError reg

/-- Result of one HTTP GET issued by a proxy handler against the upstream
service: a response with a status, a reason phrase, and a flag saying
whether `await response.json()` would succeed on its body; or the host
being unreachable (`aiohttp.ClientConnectorError`). -/
inductive UpResp where
  | ok (status : Nat) (reason : String) (jsonOk : Bool)
  | connError
deriving DecidableEq, Repr

/-- Observable outcome of one aiohttp request handler: an HTTP response
with a status and reason, or an exception propagating out of the
handler. -/
inductive HandlerOutcome where
  | resp (status : Nat) (reason : String)
  | raised
deriving DecidableEq, Repr

/-- Shallow embedding of `get_header` (lines 17-46). `blockhash` is the
`hash` path parameter (`none` when missing; Python treats the empty string
as falsy too, line 23). With Accept `application/octet-stream` the body is
read and returned with status 200 `OK` whatever the upstream status
(lines 28-33); otherwise the upstream status is relayed when it is not 200
(lines 38-39), else 200 `OK`. `aiohttp.ClientConnectorError` becomes
`web.HTTPServiceUnavailable()`, status 503 (lines 44-46). -/
def get_header (blockhash : Option String) (accept : Option String)
    (up : UpResp) : HandlerOutcome :=
  match blockhash with
  | none => HandlerOutcome.resp 400 "'hash' path parameter not supplied"
  | some h =>
    if h = "" then HandlerOutcome.resp 400 "'hash' path parameter not supplied"
    else
      match up with
      | UpResp.connError => HandlerOutcome.resp 503 "Service Unavailable"
      | UpResp.ok st reason jsonOk =>
        if accept = some "application/octet-stream" then
          HandlerOutcome.resp 200 "OK"
        else
          if st ≠ 200 then HandlerOutcome.resp st reason
          else if jsonOk then HandlerOutcome.resp 200 "OK"
          else HandlerOutcome.raised

/-- The URL built at line 59 of `get_headers_by_height`: the `height` and
`count` query parameters default to `"0"` and `"1"` when absent
(lines 55-56, `params.get('height', '0')` and `params.get('count', '1')`)
and are interpolated into the upstream `byHeight` URL. -/
def get_headers_by_height_url (header_sv_url : String)
    (heightParam countParam : Option String) : String :=
  header_sv_url ++ "/api/v1/chain/header/byHeight?height=" ++
    heightParam.getD "0" ++ "&count=" ++ countParam.getD "1"

/-- Shallow embedding of `get_headers_by_height` (lines 49-78). With Accept
`application/octet-stream` a non-200 upstream status is relayed verbatim
(lines 63-64), else 200 `OK`; the JSON branch calls `response.json()`
without any status check (lines 72-73), so it returns 200 `OK` whenever
the body parses and raises otherwise. `aiohttp.ClientConnectorError`
becomes status 503 (lines 76-78). -/
def get_headers_by_height (accept : Option String) (up : UpResp) :
    HandlerOutcome :=
  match up with
  | UpResp.connError => HandlerOutcome.resp 503 "Service Unavailable"
  | UpResp.ok st reason jsonOk =>
    if accept = some "application/octet-stream" then
      if st ≠ 200 then HandlerOutcome.resp st reason
      else HandlerOutcome.resp 200 "OK"
    else
      if jsonOk then HandlerOutcome.resp 200 "OK"
      else HandlerOutcome.raised

/-- Shallow embedding of `get_chain_tips` (lines 81-90). There is no
try/except: an unreachable upstream propagates
`aiohttp.ClientConnectorError` out of the handler, and a successful
`response.json()` is always re-served with status 200 `OK`, whatever the
upstream status was. -/
def get_chain_tips (up : UpResp) : HandlerOutcome :=
  match up with
  | UpResp.connError => HandlerOutcome.raised
  | UpResp.ok _ _ jsonOk =>
    if jsonOk then HandlerOutcome.resp 200 "OK" else HandlerOutcome.raised

/-- Shallow embedding of `get_peers` (lines 93-102), identical in shape to
`get_chain_tips` but against `/api/v1/network/peers`: no try/except, no
status check. -/
def get_peers (up : UpResp) : HandlerOutcome :=
  match up with
  | UpResp.connError => HandlerOutcome.raised
  | UpResp.ok _ _ jsonOk =>
    if jsonOk then HandlerOutcome.resp 200 "OK" else HandlerOutcome.raised

theorem foldl_frames_acc (msgs : List WSMsg) (acc : List (List Nat)) :
    msgs.foldl (fun a msg => a ++ (handleClientMessage msg).framesSent) acc = acc := by
  induction msgs generalizing acc with
  | nil => rfl
  | cons m ms ih =>
    have hm : (handleClientMessage m).framesSent = [] := by cases m <;> rfl
    rw [List.foldl_cons, hm, List.append_nil]
    exact ih acc

theorem receiveLoop_eq_nil (msgs : List WSMsg) : receiveLoop msgs = [] :=
  foldl_frames_acc msgs []

theorem findLongest_acc_of_no_match (tips : List TipEntry) (acc : Option TipEntry)
    (h : ∀ t ∈ tips, t.state ≠ "LONGEST_CHAIN") :
    tips.foldl (fun a t => if t.state = "LONGEST_CHAIN" then some t else a) acc
      = acc := by
  induction tips generalizing acc with
  | nil => rfl
  | cons x xs ih =>
    rw [List.foldl_cons, if_neg (h x (List.mem_cons_self x xs))]
    exact ih acc (fun t ht => h t (List.mem_cons_of_mem x ht))

theorem findLongest_none (tips : List TipEntry)
    (h : ∀ t ∈ tips, t.state ≠ "LONGEST_CHAIN") : findLongest tips = none :=
  findLongest_acc_of_no_match tips none h

theorem findLongest_append_last (pre : List TipEntry) (t : TipEntry)
    (ht : t.state = "LONGEST_CHAIN") : findLongest (pre ++ [t]) = some t := by
  unfold findLongest
  rw [List.foldl_append]
  simp [ht]

/-- C1 (counterexample): the frame built for an all-zero 80-byte header at
height 1 is not the header followed by the little-endian encoding of 1 —
the source packs the height big-endian (`pack_be_uint32`, line 150), so
the last four bytes are `[0,0,0,1]`, not `[1,0,0,0]`. -/
theorem C1_counterexample :
    tipFrame (List.replicate 80 0) 1 ≠
      List.replicate 80 0 ++ pack_le_uint32_spec 1 := by decide

/-- C1 (amended): for every 80-byte raw header and uint32 height, the
initial tip-notification frame equals the header concatenated with the
4-byte BIG-endian encoding of the height, is 84 bytes long, and decoding
it big-endian recovers the pair. -/
theorem C1_theorem (h : List Nat) (height : Nat) (hlen : h.length = 80)
    (hh : height < 2 ^ 32) :
    tipFrame h height = h ++ pack_be_uint32 height ∧
      decodeFrame (tipFrame h height) = (h, height) ∧
      (tipFrame h height).length = 84 := by
  refine ⟨rfl, ?_, ?_⟩
  · unfold decodeFrame tipFrame
    rw [← hlen, List.take_left, List.drop_left, unpack_pack_be height hh]
  · simp [tipFrame, pack_be_uint32, hlen]

theorem C1_theorem_witness :
    (List.replicate 80 0).length = 80 ∧ 3 < 2 ^ 32 ∧
      (tipFrame (List.replicate 80 0) 3 =
          List.replicate 80 0 ++ pack_be_uint32 3 ∧
        decodeFrame (tipFrame (List.replicate 80 0) 3) =
          (List.replicate 80 0, 3) ∧
        (tipFrame (List.replicate 80 0) 3).length = 84) :=
  ⟨by decide, by norm_num,
    C1_theorem (List.replicate 80 0) 3 (by decide) (by norm_num)⟩

/-- C2 (counterexample): when the upstream header endpoint returns a 2-byte
body, `_send_chain_tip` forwards a 6-byte frame to the client — there is no
length check, so the push does not fail on a non-80-byte raw header. -/
theorem C2_counterexample :
    send_chain_tip (Fetch.ok [⟨"LONGEST_CHAIN", "deadbeef", 5⟩])
        (fun _ => Fetch.ok [7, 7]) =
      SendTipOutcome.sent [7, 7, 0, 0, 0, 5] ∧
      ([7, 7, 0, 0, 0, 5] : List Nat).length ≠ 84 := by
  constructor
  · rfl
  · decide

/-- C2 (amended): whatever bytes the upstream returns as the raw header,
the push succeeds and the frame sent is those bytes followed by the 4-byte
height, so its length is the raw length plus 4 — it is 84 exactly when the
upstream body happened to be 80 bytes; malformed upstream data IS
forwarded. -/
theorem C2_theorem (tips : List TipEntry) (t : TipEntry) (raw : List Nat)
    (headerResp : String → Fetch (List Nat))
    (hfind : findLongest tips = some t)
    (hresp : headerResp t.hash = Fetch.ok raw) :
    send_chain_tip (Fetch.ok tips) headerResp =
        SendTipOutcome.sent (tipFrame raw t.height) ∧
      (tipFrame raw t.height).length = raw.length + 4 := by
  constructor
  · simp only [send_chain_tip, hfind, hresp]
  · simp [tipFrame, pack_be_uint32]

theorem C2_theorem_witness :
    findLongest [⟨"LONGEST_CHAIN", "aa", 9⟩] =
        some ⟨"LONGEST_CHAIN", "aa", 9⟩ ∧
      (fun _ : String => Fetch.ok [1, 2, 3]) "aa" = Fetch.ok [1, 2, 3] ∧
      (send_chain_tip (Fetch.ok [⟨"LONGEST_CHAIN", "aa", 9⟩])
          (fun _ => Fetch.ok [1, 2, 3]) =
        SendTipOutcome.sent (tipFrame [1, 2, 3] 9) ∧
        (tipFrame [1, 2, 3] 9).length = [1, 2, 3].length + 4) :=
  ⟨by decide, rfl,
    C2_theorem [⟨"LONGEST_CHAIN", "aa", 9⟩] ⟨"LONGEST_CHAIN", "aa", 9⟩
      [1, 2, 3] (fun _ => Fetch.ok [1, 2, 3]) (by decide) rfl⟩

/-- C3 (counterexample): with two tips in state `LONGEST_CHAIN`, the fetch
is not treated as a failure — a frame is pushed to the client, built from
the last matching entry. -/
theorem C3_counterexample :
    send_chain_tip
        (Fetch.ok [⟨"LONGEST_CHAIN", "a", 1⟩, ⟨"LONGEST_CHAIN", "b", 2⟩])
        (fun _ => Fetch.ok [3, 3]) =
      SendTipOutcome.sent (tipFrame [3, 3] 2) := by decide

/-- C3 (amended): when zero tips have state `LONGEST_CHAIN`, the fetch
raises an uncaught error (the best-hash local is unbound), so no frame is
sent but the exception propagates and the session IS torn down, with
nothing logged by the handler; when more than one tip matches, no failure
is reported — the last matching entry wins and a frame is pushed for
it. -/
theorem C3_theorem :
    (∀ (tips : List TipEntry) (headerResp : String → Fetch (List Nat))
        (msgs : List WSMsg),
      (∀ u ∈ tips, u.state ≠ "LONGEST_CHAIN") →
      handle_new_connection (Fetch.ok tips) headerResp msgs =
        ⟨[], true, false, false⟩) ∧
    (∀ (pre : List TipEntry) (t : TipEntry) (raw : List Nat)
        (headerResp : String → Fetch (List Nat)),
      t.state = "LONGEST_CHAIN" → headerResp t.hash = Fetch.ok raw →
      send_chain_tip (Fetch.ok (pre ++ [t])) headerResp =
        SendTipOutcome.sent (tipFrame raw t.height)) := by
  constructor
  · intro tips headerResp msgs hno
    simp only [handle_new_connection, send_chain_tip, findLongest_none tips hno]
  · intro pre t raw headerResp ht hresp
    simp only [send_chain_tip, findLongest_append_last pre t ht, hresp]

theorem C3_theorem_witness :
    handle_new_connection (Fetch.ok [⟨"STALE", "x", 0⟩])
        (fun _ => Fetch.ok [1]) [] = ⟨[], true, false, false⟩ ∧
      send_chain_tip
          (Fetch.ok ([⟨"LONGEST_CHAIN", "a", 1⟩] ++ [⟨"LONGEST_CHAIN", "b", 2⟩]))
          (fun _ => Fetch.ok [9]) =
        SendTipOutcome.sent (tipFrame [9] 2) :=
  ⟨C3_theorem.1 [⟨"STALE", "x", 0⟩] (fun _ => Fetch.ok [1]) [] (by decide),
    C3_theorem.2 [⟨"LONGEST_CHAIN", "a", 1⟩] ⟨"LONGEST_CHAIN", "b", 2⟩ [9]
      (fun _ => Fetch.ok [9]) rfl rfl⟩

/-- C4 (counterexample): when `ws.close()` raises during teardown of a
session whose id is registered, the registry deletion on line 125 never
runs — the registry still contains the entry afterwards, so removal is NOT
unconditional. -/
theorem C4_counterexample :
    ws_teardown ["a"] "a" true = TeardownResult.closeRaised ["a"] ∧
      "a" ∈ (["a"] : List String) := by decide

/-- C4 (amended): removal of the session's registry entry happens on every
exit path of the handler PROVIDED `ws.close()` does not raise; in that
case the entry is gone afterwards. If close raises, the deletion is
skipped (see the counterexample). -/
theorem C4_theorem (reg : List String) (ws_id : String) (hmem : ws_id ∈ reg) :
    ws_teardown reg ws_id false =
        TeardownResult.done (reg.filter (fun k => k ≠ ws_id)) ∧
      ws_id ∉ reg.filter (fun k => k ≠ ws_id) := by
  constructor
  · simp [ws_teardown, hmem]
  · simp

theorem C4_theorem_witness :
    "a" ∈ (["a", "b"] : List String) ∧
      (ws_teardown ["a", "b"] "a" false =
          TeardownResult.done
            ((["a", "b"] : List String).filter (fun k => k ≠ "a")) ∧
        "a" ∉ (["a", "b"] : List String).filter (fun k => k ≠ "a")) :=
  ⟨by decide, C4_theorem ["a", "b"] "a" (by decide)⟩

/-- C5 (counterexample): `get_chain_tips` and `get_peers` have no
try/except, so an unreachable upstream host propagates the exception out
of the handler instead of producing a 503 response. -/
theorem C5_counterexample :
    get_chain_tips UpResp.connError = HandlerOutcome.raised ∧
      get_peers UpResp.connError = HandlerOutcome.raised := by decide

/-- C5 (amended): on an unreachable upstream host, `get_header` and
`get_headers_by_height` return 503 Service Unavailable and the session's
initial-tip fetch is non-fatal (logged, no frame), but `get_chain_tips`
and `get_peers` propagate the exception. -/
theorem C5_theorem (bh : String) (accept : Option String)
    (headerResp : String → Fetch (List Nat)) (hbh : bh ≠ "") :
    get_header (some bh) accept UpResp.connError =
        HandlerOutcome.resp 503 "Service Unavailable" ∧
      get_headers_by_height accept UpResp.connError =
        HandlerOutcome.resp 503 "Service Unavailable" ∧
      send_chain_tip Fetch.connError headerResp =
        SendTipOutcome.noFrameLogged ∧
      get_chain_tips UpResp.connError = HandlerOutcome.raised ∧
      get_peers UpResp.connError = HandlerOutcome.raised := by
  refine ⟨?_, rfl, rfl, rfl, rfl⟩
  simp [get_header, hbh]

theorem C5_theorem_witness :
    "abc" ≠ "" ∧
      (get_header (some "abc") none UpResp.connError =
          HandlerOutcome.resp 503 "Service Unavailable" ∧
        get_headers_by_height none UpResp.connError =
          HandlerOutcome.resp 503 "Service Unavailable" ∧
        send_chain_tip Fetch.connError (fun _ => Fetch.connError) =
          SendTipOutcome.noFrameLogged ∧
        get_chain_tips UpResp.connError = HandlerOutcome.raised ∧
        get_peers UpResp.connError = HandlerOutcome.raised) :=
  ⟨by decide, C5_theorem "abc" none (fun _ => Fetch.connError) (by decide)⟩

/-- C6 (counterexample): on an upstream 500, `get_chain_tips` re-serves the
body with status 200 `OK`, and `get_header` in its octet-stream branch
does the same — the upstream status is not relayed on these paths. -/
theorem C6_counterexample :
    get_chain_tips (UpResp.ok 500 "Internal Server Error" true) =
        HandlerOutcome.resp 200 "OK" ∧
      get_header (some "aa") (some "application/octet-stream")
          (UpResp.ok 500 "Internal Server Error" true) =
        HandlerOutcome.resp 200 "OK" := by decide

/-- C6 (amended): the upstream status and reason are relayed verbatim only
by `get_header`'s JSON branch and `get_headers_by_height`'s octet-stream
branch; `get_header`'s octet-stream branch, `get_headers_by_height`'s JSON
branch, `get_chain_tips` and `get_peers` answer 200 `OK` regardless of the
upstream status. -/
theorem C6_theorem (st : Nat) (reason : String) (jsonOk : Bool)
    (hst : st ≠ 200) :
    get_header (some "hash") none (UpResp.ok st reason jsonOk) =
        HandlerOutcome.resp st reason ∧
      get_headers_by_height (some "application/octet-stream")
          (UpResp.ok st reason jsonOk) = HandlerOutcome.resp st reason ∧
      get_header (some "hash") (some "application/octet-stream")
          (UpResp.ok st reason jsonOk) = HandlerOutcome.resp 200 "OK" ∧
      get_headers_by_height none (UpResp.ok st reason true) =
        HandlerOutcome.resp 200 "OK" ∧
      get_chain_tips (UpResp.ok st reason true) =
        HandlerOutcome.resp 200 "OK" ∧
      get_peers (UpResp.ok st reason true) = HandlerOutcome.resp 200 "OK" := by
  refine ⟨?_, ?_, ?_, rfl, rfl, rfl⟩
  · simp [get_header, hst]
  · simp [get_headers_by_height, hst]
  · simp [get_header]

theorem C6_theorem_witness :
    (500 : Nat) ≠ 200 ∧
      (get_header (some "hash") none
          (UpResp.ok 500 "Internal Server Error" false) =
        HandlerOutcome.resp 500 "Internal Server Error" ∧
        get_headers_by_height (some "application/octet-stream")
            (UpResp.ok 500 "Internal Server Error" false) =
          HandlerOutcome.resp 500 "Internal Server Error" ∧
        get_header (some "hash") (some "application/octet-stream")
            (UpResp.ok 500 "Internal Server Error" false) =
          HandlerOutcome.resp 200 "OK" ∧
        get_headers_by_height none (UpResp.ok 500 "Internal Server Error" true) =
          HandlerOutcome.resp 200 "OK" ∧
        get_chain_tips (UpResp.ok 500 "Internal Server Error" true) =
          HandlerOutcome.resp 200 "OK" ∧
        get_peers (UpResp.ok 500 "Internal Server Error" true) =
          HandlerOutcome.resp 200 "OK") :=
  ⟨by decide, C6_theorem 500 "Internal Server Error" false (by decide)⟩

/-- C7 (counterexample): deleting an id that is absent from the registry is
not a no-op — the `del` of line 125 raises `KeyError`, crashing the
teardown path. -/
theorem C7_counterexample :
    ws_teardown [] "x" false = TeardownResult.keyError [] ∧
      ws_teardown [] "x" false ≠ TeardownResult.done [] := by decide

/-- C7 (amended): when the session's id is absent from the registry at
teardown and `ws.close()` returned normally, the registry deletion raises
`KeyError` — removal of an absent id crashes the teardown path instead of
being a safe no-op. -/
theorem C7_theorem (reg : List String) (ws_id : String) (h : ws_id ∉ reg) :
    ws_teardown reg ws_id false = TeardownResult.keyError reg := by
  simp [ws_teardown, h]

theorem C7_theorem_witness :
    "a" ∉ (["b"] : List String) ∧
      ws_teardown ["b"] "a" false = TeardownResult.keyError ["b"] :=
  ⟨by decide, C7_theorem ["b"] "a" (by decide)⟩

/-- C8: when the upstream host is unreachable during the initial-tip
fetch, the session sends zero frames, logs the unreachable error, does not
raise, and reaches its passive receive loop, staying there for the whole
inbound message stream. -/
theorem C8_theorem (headerResp : String → Fetch (List Nat))
    (msgs : List WSMsg) :
    handle_new_connection Fetch.connError headerResp msgs =
      ⟨[], false, true, true⟩ := by
  unfold handle_new_connection send_chain_tip
  rw [receiveLoop_eq_nil]

/-- C9: a text message from the client is logged and discarded — the loop
body sends no response frame and does not close the connection. -/
theorem C9_theorem (d : String) :
    handleClientMessage (WSMsg.text d) = ⟨[], true, false⟩ := rfl

/-- C10: when the `height` and `count` query parameters are absent, the
URL forwarded to the upstream byHeight endpoint carries `height=0` and
`count=1`. -/
theorem C10_theorem (u : String) :
    get_headers_by_height_url u none none =
      u ++ "/api/v1/chain/header/byHeight?height=0&count=1" := by
  unfold get_headers_by_height_url
  rw [String.append_assoc, String.append_assoc, String.append_assoc]
  rfl

end ESVRef
